import Mathlib

/-!
Verification of the workout-statistics module `homework.py`.

The module computes distance, mean speed and calories for three workout
kinds (running, sports walking, swimming), renders a one-line summary, and
dispatches `(workout_type, data)` packages to the right constructor.

Embedding conventions:
* Python numbers (`int`/`float`) are modelled as exact rationals `ℚ`;
  every arithmetic identity proved below holds for the real-number
  formulas the Python floats approximate.
* Python exceptions are modelled by the error type `PyError`; fallible
  computations return `Except PyError α`.  `x / y` on Python numbers
  raises `ZeroDivisionError` when `y = 0`, hence `pydiv`/`pyfloordiv`.
* Python `//` on floats is `math.floor (x / y)` returned as a float,
  hence `pyfloordiv` returns the floor cast back into `ℚ`.
* The class hierarchy is flattened: each subclass becomes a structure,
  inherited methods are spelled out on the subclass via the base-class
  body (with the subclass's own class attributes, mirroring Python
  attribute lookup).
-/

set_option autoImplicit false

deriving instance DecidableEq for Except

/-- Python exceptions that the module can raise.

* `zeroDivisionError` — `ZeroDivisionError` from `/` or `//` by zero.
* `notImplementedError` — raised by `Training.get_spent_calories`
  (the Python message names the dynamic class; the claims only depend on
  the exception kind, so no payload is carried here).
* `typeError tag data` — `TypeError` raised by Python when a constructor
  is called through `workout_types[workout_type](*data)` with the wrong
  number of positional arguments; we record the tag and the data that
  were being dispatched.
* `trainingNameError tag` — `TrainingNameErrorException`, raised by
  `read_package` for an unknown `workout_type`; its Python message
  embeds the offending tag, recorded here as the payload.
* `trainingDataError tag data` — `TrainingDataErrorExcrption`, raised by
  `read_package` from its `except ValueError` clause; its Python message
  embeds the tag and the received data, recorded here as payloads. -/
inductive PyError where
  | zeroDivisionError
  | notImplementedError
  | typeError (tag : String) (data : List ℚ)
  | trainingNameError (tag : String)
  | trainingDataError (tag : String) (data : List ℚ)
  deriving DecidableEq

/-- Python true division on numbers: raises `ZeroDivisionError` on a zero
divisor, otherwise returns the exact quotient. -/
def pydiv (a b : ℚ) : Except PyError ℚ :=
  if b = 0 then .error .zeroDivisionError else .ok (a / b)

/-- Python floor division `a // b` on numbers: raises `ZeroDivisionError`
on a zero divisor, otherwise returns `⌊a / b⌋` (as a number again, the
way float `//` does). -/
def pyfloordiv (a b : ℚ) : Except PyError ℚ :=
  if b = 0 then .error .zeroDivisionError else .ok ((⌊a / b⌋ : ℤ) : ℚ)

/-- The dataclass `InfoMessage`: the summary record with the display name
of the training class and the four numeric results. -/
structure InfoMessage where
  training_type : String
  duration : ℚ
  distance : ℚ
  speed : ℚ
  calories : ℚ
  deriving DecidableEq

/-- Zero-pads a natural number below 1000 to three digits; the fractional
part of a `.3f` rendering. -/
def pad3 (n : ℕ) : String :=
  if n < 10 then "00" ++ toString n
  else if n < 100 then "0" ++ toString n
  else toString n

/-- Python `format(x, ".3f")` on our exact rationals: round to the
nearest thousandth (`round` resolves the tie upward; Python rounds the
underlying binary float to even, and no value produced by this module is
a tie) and print with exactly three digits after the point. -/
def fmt3 (q : ℚ) : String :=
  (if round (q * 1000) < 0 then "-" else "")
    ++ toString ((round (q * 1000)).natAbs / 1000)
    ++ "." ++ pad3 ((round (q * 1000)).natAbs % 1000)

/-- `InfoMessage.get_message`: `self.message.format(**asdict(self))`.
The class attribute `message` is the (Russian) template
`Тип тренировки: ...; Длительность: ... ч.; Дистанция: ... км;
Ср. скорость: ... км/ч; Потрачено ккал: ... .` with the four numeric
fields formatted `.3f`; formatting substitutes the five fields, which is
spelled out here as concatenation. -/
def InfoMessage.get_message (m : InfoMessage) : String :=
  "Тип тренировки: " ++ m.training_type
    ++ "; Длительность: " ++ fmt3 m.duration
    ++ " ч.; Дистанция: " ++ fmt3 m.distance
    ++ " км; Ср. скорость: " ++ fmt3 m.speed
    ++ " км/ч; Потрачено ккал: " ++ fmt3 m.calories ++ "."

/-- The base class `Training`: fields assigned by
`Training.__init__(action, duration, weight)` (no validation at all). -/
structure Training where
  action : ℚ
  duration : ℚ
  weight : ℚ
  deriving DecidableEq

/-- Class attribute `Training.LEN_STEP = 0.65`. -/
def Training.LEN_STEP : ℚ := 0.65

/-- Class attribute `Training.M_IN_KM = 1000.0`. -/
def Training.M_IN_KM : ℚ := 1000

/-- Class attribute `Training.MIN_IN_HOUR = 60.0`. -/
def Training.MIN_IN_HOUR : ℚ := 60

/-- `Training.get_distance`: `self.action * self.LEN_STEP / self.M_IN_KM`
(total: the only division is by the constant 1000). -/
def Training.get_distance (t : Training) : ℚ :=
  t.action * Training.LEN_STEP / Training.M_IN_KM

/-- `Training.get_mean_speed`: `self.get_distance() / self.duration`;
raises `ZeroDivisionError` when `duration = 0`. -/
def Training.get_mean_speed (t : Training) : Except PyError ℚ :=
  pydiv t.get_distance t.duration

/-- `Training.get_spent_calories`: unconditionally raises
`NotImplementedError` with a message naming the dynamic class. -/
def Training.get_spent_calories (_t : Training) : Except PyError ℚ :=
  .error .notImplementedError

/-- The subclass `Running` adds no fields and overrides only
`get_spent_calories`; its instances are `Training` records. -/
abbrev Running := Training

/-- Class attribute `Running.COEFF_MEAN_SPEED_1 = 18.0`. -/
def Running.COEFF_MEAN_SPEED_1 : ℚ := 18

/-- Class attribute `Running.COEFF_MEAN_SPEED_2 = 20.0`. -/
def Running.COEFF_MEAN_SPEED_2 : ℚ := 20

/-- `Running.get_spent_calories`:
`(self.get_mean_speed() * 18 - 20) * self.weight / self.M_IN_KM
* (self.duration * self.MIN_IN_HOUR)`. -/
def Running.get_spent_calories (t : Running) : Except PyError ℚ := do
  let mean_speed ← Training.get_mean_speed t
  let duration_in_min := t.duration * Training.MIN_IN_HOUR
  let coeff_mean_speed :=
    mean_speed * Running.COEFF_MEAN_SPEED_1 - Running.COEFF_MEAN_SPEED_2
  pure (coeff_mean_speed * t.weight / Training.M_IN_KM * duration_in_min)

/-- `Running.show_training_info` (inherited from `Training`): builds the
`InfoMessage` with `self.__class__.__name__ = "Running"`. -/
def Running.show_training_info (t : Running) : Except PyError InfoMessage := do
  let distance := Training.get_distance t
  let mean_speed ← Training.get_mean_speed t
  let spent_calories ← Running.get_spent_calories t
  pure ⟨"Running", t.duration, distance, mean_speed, spent_calories⟩

/-- The subclass `SportsWalking`: `__init__` additionally stores
`height`. -/
structure SportsWalking where
  action : ℚ
  duration : ℚ
  weight : ℚ
  height : ℚ
  deriving DecidableEq

/-- Class attribute `SportsWalking.COEFF_CALORIE_1 = 0.035`. -/
def SportsWalking.COEFF_CALORIE_1 : ℚ := 0.035

/-- Class attribute `SportsWalking.COEFF_CALORIE_2 = 0.029`. -/
def SportsWalking.COEFF_CALORIE_2 : ℚ := 0.029

/-- The base-class portion of a `SportsWalking` instance (the fields
assigned by the `super().__init__` call). -/
def SportsWalking.toTraining (w : SportsWalking) : Training :=
  ⟨w.action, w.duration, w.weight⟩

/-- `SportsWalking.get_distance` (inherited from `Training`, with
`LEN_STEP = 0.65` since `SportsWalking` does not override it). -/
def SportsWalking.get_distance (w : SportsWalking) : ℚ :=
  Training.get_distance w.toTraining

/-- `SportsWalking.get_mean_speed` (inherited from `Training`). -/
def SportsWalking.get_mean_speed (w : SportsWalking) : Except PyError ℚ :=
  Training.get_mean_speed w.toTraining

/-- `SportsWalking.get_spent_calories`:
`(0.035 * weight + mean_speed ** 2 // height * 0.029 * weight)
* (duration * 60)`; the `//` is Python floor division, raising
`ZeroDivisionError` when `height = 0`. -/
def SportsWalking.get_spent_calories (w : SportsWalking) : Except PyError ℚ := do
  let duration_in_min := w.duration * Training.MIN_IN_HOUR
  let mean_speed ← SportsWalking.get_mean_speed w
  let floored ← pyfloordiv (mean_speed ^ 2) w.height
  pure ((SportsWalking.COEFF_CALORIE_1 * w.weight
      + floored * SportsWalking.COEFF_CALORIE_2 * w.weight) * duration_in_min)

/-- `SportsWalking.show_training_info` (inherited from `Training`):
`self.__class__.__name__ = "SportsWalking"`. -/
def SportsWalking.show_training_info (w : SportsWalking) :
    Except PyError InfoMessage := do
  let distance := SportsWalking.get_distance w
  let mean_speed ← SportsWalking.get_mean_speed w
  let spent_calories ← SportsWalking.get_spent_calories w
  pure ⟨"SportsWalking", w.duration, distance, mean_speed, spent_calories⟩

/-- The subclass `Swimming`: `__init__` additionally stores
`length_pool` and `count_pool`. -/
structure Swimming where
  action : ℚ
  duration : ℚ
  weight : ℚ
  length_pool : ℚ
  count_pool : ℚ
  deriving DecidableEq

/-- Class attribute `Swimming.LEN_STEP = 1.38` (overrides the base 0.65). -/
def Swimming.LEN_STEP : ℚ := 1.38

/-- Class attribute `Swimming.COEFF_MEAN_SPEED_1 = 1.1`. -/
def Swimming.COEFF_MEAN_SPEED_1 : ℚ := 1.1

/-- Class attribute `Swimming.COEFF_MEAN_SPEED_2 = 2`. -/
def Swimming.COEFF_MEAN_SPEED_2 : ℚ := 2

/-- `Swimming.get_distance`: the inherited `Training.get_distance` body,
in which `self.LEN_STEP` now resolves to `Swimming.LEN_STEP = 1.38`.
`Swimming` does NOT override `get_distance` itself. -/
def Swimming.get_distance (s : Swimming) : ℚ :=
  s.action * Swimming.LEN_STEP / Training.M_IN_KM

/-- `Swimming.get_mean_speed` (override):
`self.length_pool * self.count_pool / self.M_IN_KM / self.duration`. -/
def Swimming.get_mean_speed (s : Swimming) : Except PyError ℚ :=
  pydiv (s.length_pool * s.count_pool / Training.M_IN_KM) s.duration

/-- `Swimming.get_spent_calories`:
`(self.get_mean_speed() + 1.1) * 2 * self.weight`. -/
def Swimming.get_spent_calories (s : Swimming) : Except PyError ℚ := do
  let mean_speed ← Swimming.get_mean_speed s
  pure ((mean_speed + Swimming.COEFF_MEAN_SPEED_1)
    * Swimming.COEFF_MEAN_SPEED_2 * s.weight)

/-- `Swimming.show_training_info` (inherited from `Training`, resolving
the overridden methods): `self.__class__.__name__ = "Swimming"`. -/
def Swimming.show_training_info (s : Swimming) : Except PyError InfoMessage := do
  let distance := Swimming.get_distance s
  let mean_speed ← Swimming.get_mean_speed s
  let spent_calories ← Swimming.get_spent_calories s
  pure ⟨"Swimming", s.duration, distance, mean_speed, spent_calories⟩

/-- A constructed training instance, as returned by `read_package`. -/
inductive TrainingInst where
  | run (t : Running)
  | wlk (w : SportsWalking)
  | swm (s : Swimming)
  deriving DecidableEq

/-- `read_package(workout_type, data)`.

Python semantics modelled step by step:
* `workout_types[workout_type]` raises `KeyError` for a tag outside
  `{SWM, RUN, WLK}`; the `except KeyError` clause converts it into
  `TrainingNameErrorException` (`trainingNameError`) before any
  constructor runs.
* `cls(*data)` with the wrong number of positional arguments raises
  `TypeError`.  The function only catches `KeyError` and `ValueError`,
  so that `TypeError` escapes `read_package` uncaught (`typeError`).
  The `except ValueError` clause, which would raise
  `TrainingDataErrorExcrption` (`trainingDataError`), is unreachable:
  no `ValueError` can arise from these constructors, which merely
  assign their arguments to attributes.
* With the right number of arguments the constructor stores the data
  verbatim and the instance is returned. -/
def read_package (workout_type : String) (data : List ℚ) :
    Except PyError TrainingInst :=
  if workout_type = "SWM" then
    match data with
    | [action, duration, weight, length_pool, count_pool] =>
        .ok (.swm ⟨action, duration, weight, length_pool, count_pool⟩)
    | _ => .error (.typeError workout_type data)
  else if workout_type = "RUN" then
    match data with
    | [action, duration, weight] => .ok (.run ⟨action, duration, weight⟩)
    | _ => .error (.typeError workout_type data)
  else if workout_type = "WLK" then
    match data with
    | [action, duration, weight, height] =>
        .ok (.wlk ⟨action, duration, weight, height⟩)
    | _ => .error (.typeError workout_type data)
  else
    .error (.trainingNameError workout_type)

/-- Virtual dispatch of `show_training_info` on a constructed instance. -/
def TrainingInst.show_training_info :
    TrainingInst → Except PyError InfoMessage
  | .run t => Running.show_training_info t
  | .wlk w => SportsWalking.show_training_info w
  | .swm s => Swimming.show_training_info s

/-- One driver iteration without the printing: dispatch the package and
render the message of `show_training_info` (the body of `main`). -/
def main_message (workout_type : String) (data : List ℚ) :
    Except PyError String := do
  let training ← read_package workout_type data
  let info ← TrainingInst.show_training_info training
  pure info.get_message

/-! ### Computation lemmas -/

theorem pydiv_ok (a b : ℚ) (h : b ≠ 0) : pydiv a b = .ok (a / b) := by
  simp [pydiv, h]

theorem pyfloordiv_ok (a b : ℚ) (h : b ≠ 0) :
    pyfloordiv a b = .ok ((⌊a / b⌋ : ℤ) : ℚ) := by
  simp [pyfloordiv, h]

theorem fmt3_eq (q : ℚ) (n : ℕ) (h : round (q * 1000) = (n : ℤ)) :
    fmt3 q = toString (n / 1000) ++ "." ++ pad3 (n % 1000) := by
  unfold fmt3
  rw [h, if_neg (not_lt.mpr (Int.natCast_nonneg n))]
  simp

theorem training_mean_speed_eq (t : Training) (h : t.duration ≠ 0) :
    Training.get_mean_speed t = .ok (Training.get_distance t / t.duration) := by
  simp [Training.get_mean_speed, pydiv, h]

theorem running_calories_eq (t : Running) (h : t.duration ≠ 0) :
    Running.get_spent_calories t =
      .ok ((Training.get_distance t / t.duration * Running.COEFF_MEAN_SPEED_1
          - Running.COEFF_MEAN_SPEED_2) * t.weight / Training.M_IN_KM
        * (t.duration * Training.MIN_IN_HOUR)) := by
  rw [Running.get_spent_calories, training_mean_speed_eq t h]
  rfl

theorem walking_calories_eq (w : SportsWalking)
    (hd : w.duration ≠ 0) (hh : w.height ≠ 0) :
    SportsWalking.get_spent_calories w =
      .ok ((SportsWalking.COEFF_CALORIE_1 * w.weight
          + ((⌊(Training.get_distance w.toTraining / w.duration) ^ 2 / w.height⌋ : ℤ) : ℚ)
            * SportsWalking.COEFF_CALORIE_2 * w.weight)
        * (w.duration * Training.MIN_IN_HOUR)) := by
  rw [SportsWalking.get_spent_calories]
  rw [show SportsWalking.get_mean_speed w
      = .ok (Training.get_distance w.toTraining / w.duration) from
    training_mean_speed_eq w.toTraining hd]
  show (pyfloordiv _ w.height).bind _ = _
  rw [pyfloordiv_ok _ _ hh]
  rfl

theorem swimming_mean_speed_eq (s : Swimming) (h : s.duration ≠ 0) :
    Swimming.get_mean_speed s =
      .ok (s.length_pool * s.count_pool / Training.M_IN_KM / s.duration) := by
  simp [Swimming.get_mean_speed, pydiv, h]

theorem swimming_calories_eq (s : Swimming) (h : s.duration ≠ 0) :
    Swimming.get_spent_calories s =
      .ok ((s.length_pool * s.count_pool / Training.M_IN_KM / s.duration
          + Swimming.COEFF_MEAN_SPEED_1)
        * Swimming.COEFF_MEAN_SPEED_2 * s.weight) := by
  rw [Swimming.get_spent_calories, swimming_mean_speed_eq s h]
  rfl

/-! ### Claims -/

/-- Claim C1 (code bug in `read_package`): with tag `"RUN"` and exactly
3 parameters the dispatcher returns a constructed `Running` instance,
but with 2 or 4 parameters the constructor call raises `TypeError`,
which `read_package` does not catch (it catches only `KeyError` and
`ValueError`), so the escaping failure is a bare `TypeError` and NOT the
distinguishable `TrainingDataErrorExcrption` ("invalid parameter
count") that the specification promises; that exception is never
raised. -/
theorem read_package_run_arity_behaviour :
    (∀ action duration weight : ℚ,
      read_package "RUN" [action, duration, weight]
        = Except.ok (TrainingInst.run ⟨action, duration, weight⟩))
    ∧ read_package "RUN" [15000, 1]
        = Except.error (PyError.typeError "RUN" [15000, 1])
    ∧ read_package "RUN" [15000, 1, 75, 180]
        = Except.error (PyError.typeError "RUN" [15000, 1, 75, 180])
    ∧ PyError.typeError "RUN" [15000, 1]
        ≠ PyError.trainingDataError "RUN" [15000, 1] :=
  ⟨fun _ _ _ => rfl, rfl, rfl, by simp⟩

/-- Claim C2, counterexample: on the package
`("SWM", [720, 1, 80, 25, 40])` the distance reported by `Swimming` is
`720 * 1.38 / 1000 = 0.9936` km, not the `25 * 40 / 1000 = 1` km the
claim states, because `Swimming` does not override `get_distance`. -/
theorem swimming_distance_cex :
    Swimming.get_distance ⟨720, 1, 80, 25, 40⟩ = 0.9936
    ∧ (0.9936 : ℚ) ≠ 1
    ∧ (25 * 40 / 1000 : ℚ) = 1 := by
  refine ⟨?_, by norm_num, by norm_num⟩
  norm_num [Swimming.get_distance, Swimming.LEN_STEP, Training.M_IN_KM]

/-- Claim C2, amended: `Swimming` keeps the inherited distance formula
`action * LEN_STEP / 1000` with the overridden step constant
`LEN_STEP = 1.38`; only the mean speed uses
`pool-length * lengths-count`.  On `("SWM", [720, 1, 80, 25, 40])` the
reported distance is `0.9936` km while the mean speed is `1` km/h. -/
theorem swimming_distance_amended :
    (∀ s : Swimming, Swimming.get_distance s = s.action * 1.38 / 1000)
    ∧ Swimming.get_distance ⟨720, 1, 80, 25, 40⟩ = 0.9936
    ∧ Swimming.get_mean_speed ⟨720, 1, 80, 25, 40⟩ = Except.ok 1 := by
  refine ⟨fun s => rfl, ?_, ?_⟩
  · norm_num [Swimming.get_distance, Swimming.LEN_STEP, Training.M_IN_KM]
  · rw [swimming_mean_speed_eq _ (by norm_num)]
    norm_num [Training.M_IN_KM]

/-- Claim C3, counterexample: on the package `("RUN", [15000, 1, 75])`
the spent calories are `((18 * 9.75 - 20) * 75 / 1000) * 60 = 699.75`,
not the `742.5` the claim states. -/
theorem running_calories_cex :
    Running.get_spent_calories ⟨15000, 1, 75⟩ = Except.ok 699.75
    ∧ (699.75 : ℚ) ≠ 742.5 := by
  refine ⟨?_, by norm_num⟩
  rw [running_calories_eq _ (by norm_num)]
  norm_num [Training.get_distance, Training.LEN_STEP, Training.M_IN_KM,
    Running.COEFF_MEAN_SPEED_1, Running.COEFF_MEAN_SPEED_2,
    Training.MIN_IN_HOUR]

/-- Claim C3, amended: for every `Running` record with positive
duration, `distanceKm = action * 0.65 / 1000`,
`meanSpeedKmh = distanceKm / duration` and
`caloriesSpent = ((18 * meanSpeedKmh - 20) * weight / 1000)
* (duration * 60)`; on `("RUN", [15000, 1, 75])` this gives distance
`9.75` km, speed `9.75` km/h and calories `699.75` (not `742.5`). -/
theorem running_formulas_amended :
    ∀ t : Running, 0 < t.duration →
      Training.get_distance t = t.action * 0.65 / 1000
      ∧ Training.get_mean_speed t
          = Except.ok (t.action * 0.65 / 1000 / t.duration)
      ∧ Running.get_spent_calories t
          = Except.ok (((18 * (t.action * 0.65 / 1000 / t.duration) - 20)
              * t.weight / 1000) * (t.duration * 60)) := by
  intro t ht
  have hne : t.duration ≠ 0 := ne_of_gt ht
  refine ⟨rfl, ?_, ?_⟩
  · rw [training_mean_speed_eq t hne]
    exact rfl
  · rw [running_calories_eq t hne]
    congr 1
    simp only [Training.get_distance, Training.LEN_STEP, Training.M_IN_KM,
      Running.COEFF_MEAN_SPEED_1, Running.COEFF_MEAN_SPEED_2,
      Training.MIN_IN_HOUR]
    ring

/-- Witness for the amended claim C3, at the driver's RUN package. -/
theorem running_formulas_amended_witness :
    (0 : ℚ) < 1
    ∧ (Training.get_distance ⟨15000, 1, 75⟩ = (15000 : ℚ) * 0.65 / 1000
      ∧ Training.get_mean_speed ⟨15000, 1, 75⟩
          = Except.ok ((15000 : ℚ) * 0.65 / 1000 / 1)
      ∧ Running.get_spent_calories ⟨15000, 1, 75⟩
          = Except.ok (((18 * ((15000 : ℚ) * 0.65 / 1000 / 1) - 20)
              * 75 / 1000) * (1 * 60))) :=
  ⟨by norm_num, running_formulas_amended ⟨15000, 1, 75⟩ (by norm_num)⟩

/-- Claim C6: for every tag outside `{"SWM", "RUN", "WLK"}` and every
parameter list, `read_package` fails with
`TrainingNameErrorException` carrying the offending tag (the dictionary
lookup raises `KeyError` before any constructor can run). -/
theorem read_package_unknown_tag :
    ∀ (tag : String) (data : List ℚ),
      ¬(tag = "SWM" ∨ tag = "RUN" ∨ tag = "WLK") →
      read_package tag data = Except.error (PyError.trainingNameError tag) := by
  intro tag data h
  push_neg at h
  obtain ⟨h1, h2, h3⟩ := h
  unfold read_package
  rw [if_neg h1, if_neg h2, if_neg h3]

/-- Witness for claim C6 at the tag `"XYZ"`. -/
theorem read_package_unknown_tag_witness :
    ¬("XYZ" = "SWM" ∨ "XYZ" = "RUN" ∨ "XYZ" = "WLK")
    ∧ read_package "XYZ" [1, 2, 3]
        = Except.error (PyError.trainingNameError "XYZ") :=
  ⟨by decide, read_package_unknown_tag "XYZ" [1, 2, 3] (by decide)⟩

/-- Claim C7: the base-class `Training.get_spent_calories` always raises
`NotImplementedError` and never returns a numeric value. -/
theorem base_get_spent_calories_unimplemented :
    ∀ t : Training,
      Training.get_spent_calories t = Except.error PyError.notImplementedError
      ∧ ∀ q : ℚ, Training.get_spent_calories t ≠ Except.ok q :=
  fun t => ⟨rfl, fun q h => by simp [Training.get_spent_calories] at h⟩

/-- Claim C9: a record with zero duration is constructed without any
validation (`read_package` happily returns it), and the mean-speed
computation on that record raises `ZeroDivisionError`: the
division-by-zero fault is reachable from a successfully constructed
instance. -/
theorem zero_duration_reaches_division_fault :
    read_package "RUN" [100, 0, 75]
        = Except.ok (TrainingInst.run ⟨100, 0, 75⟩)
    ∧ Training.get_mean_speed ⟨100, 0, 75⟩
        = Except.error PyError.zeroDivisionError := by
  refine ⟨rfl, ?_⟩
  simp [Training.get_mean_speed, pydiv]

/-- Claim C4: for every `SportsWalking` record with positive duration and
height, the spent calories are
`(0.035 * weight + (meanSpeed ^ 2 // height) * 0.029 * weight)
* (duration * 60)` where `//` is floor division (for the nonnegative
numerator `meanSpeed ^ 2` and positive height this truncates toward
zero), not ordinary division. -/
theorem sportswalking_calories_floor :
    ∀ (w : SportsWalking) (ms : ℚ), 0 < w.duration → 0 < w.height →
      SportsWalking.get_mean_speed w = Except.ok ms →
      SportsWalking.get_spent_calories w
        = Except.ok ((0.035 * w.weight
            + ((⌊ms ^ 2 / w.height⌋ : ℤ) : ℚ) * 0.029 * w.weight)
          * (w.duration * 60)) := by
  intro w ms hd hh hms
  have hdne : w.duration ≠ 0 := ne_of_gt hd
  have hhne : w.height ≠ 0 := ne_of_gt hh
  have hmseq : ms = Training.get_distance w.toTraining / w.duration := by
    have h1 : (Except.ok ms : Except PyError ℚ)
        = Except.ok (Training.get_distance w.toTraining / w.duration) := by
      rw [← hms, SportsWalking.get_mean_speed,
        training_mean_speed_eq w.toTraining hdne]
      exact rfl
    exact Except.ok.inj h1
  rw [walking_calories_eq w hdne hhne, hmseq]
  exact rfl

/-- Witness for claim C4, at the driver's WLK package
`("WLK", [9000, 1, 75, 180])`, where the mean speed is `5.85` km/h. -/
theorem sportswalking_calories_floor_witness :
    (0 : ℚ) < 1 ∧ (0 : ℚ) < 180
    ∧ SportsWalking.get_mean_speed ⟨9000, 1, 75, 180⟩ = Except.ok 5.85
    ∧ SportsWalking.get_spent_calories ⟨9000, 1, 75, 180⟩
        = Except.ok ((0.035 * 75
            + ((⌊(5.85 : ℚ) ^ 2 / 180⌋ : ℤ) : ℚ) * 0.029 * 75)
          * (1 * 60)) := by
  have hms : SportsWalking.get_mean_speed ⟨9000, 1, 75, 180⟩
      = Except.ok 5.85 := by
    rw [SportsWalking.get_mean_speed,
      training_mean_speed_eq _ (by norm_num [SportsWalking.toTraining])]
    norm_num [SportsWalking.toTraining, Training.get_distance,
      Training.LEN_STEP, Training.M_IN_KM]
  exact ⟨by norm_num, by norm_num, hms,
    sportswalking_calories_floor ⟨9000, 1, 75, 180⟩ 5.85
      (by norm_num) (by norm_num) hms⟩

/-- Claim C5: for every `Swimming` record with positive duration, the
mean speed is `length_pool * count_pool / 1000 / duration` — a value
independent of the `action` field and of the step-length constant — and
the spent calories are `(meanSpeed + 1.1) * 2 * weight`. -/
theorem swimming_speed_calories :
    ∀ s : Swimming, 0 < s.duration →
      Swimming.get_mean_speed s
          = Except.ok (s.length_pool * s.count_pool / 1000 / s.duration)
      ∧ (∀ a : ℚ, Swimming.get_mean_speed { s with action := a }
          = Swimming.get_mean_speed s)
      ∧ Swimming.get_spent_calories s
          = Except.ok ((s.length_pool * s.count_pool / 1000 / s.duration
              + 1.1) * 2 * s.weight) := by
  intro s hs
  have hne : s.duration ≠ 0 := ne_of_gt hs
  refine ⟨?_, fun a => rfl, ?_⟩
  · rw [swimming_mean_speed_eq s hne]
    exact rfl
  · rw [swimming_calories_eq s hne]
    exact rfl

/-- Witness for claim C5, at the driver's SWM package
`("SWM", [720, 1, 80, 25, 40])`: speed `1` km/h, calories `336`. -/
theorem swimming_speed_calories_witness :
    (0 : ℚ) < 1
    ∧ (Swimming.get_mean_speed ⟨720, 1, 80, 25, 40⟩
          = Except.ok ((25 : ℚ) * 40 / 1000 / 1)
      ∧ (∀ a : ℚ, Swimming.get_mean_speed ⟨a, 1, 80, 25, 40⟩
          = Swimming.get_mean_speed ⟨720, 1, 80, 25, 40⟩)
      ∧ Swimming.get_spent_calories ⟨720, 1, 80, 25, 40⟩
          = Except.ok (((25 : ℚ) * 40 / 1000 / 1 + 1.1) * 2 * 80))
    ∧ (25 : ℚ) * 40 / 1000 / 1 = 1
    ∧ ((25 : ℚ) * 40 / 1000 / 1 + 1.1) * 2 * 80 = 336 :=
  ⟨by norm_num, swimming_speed_calories ⟨720, 1, 80, 25, 40⟩ (by norm_num),
    by norm_num, by norm_num⟩

/-- Claim C10: for every `SportsWalking` record with positive duration
and height whose mean speed satisfies `meanSpeed ^ 2 < height`, the
floor-divided term is zero, so the spent calories collapse to
`0.035 * weight * (duration * 60)`, independent of height, action count
and speed. -/
theorem sportswalking_zero_floor_calories :
    ∀ (w : SportsWalking) (ms : ℚ), 0 < w.duration → 0 < w.height →
      SportsWalking.get_mean_speed w = Except.ok ms → ms ^ 2 < w.height →
      SportsWalking.get_spent_calories w
        = Except.ok (0.035 * w.weight * (w.duration * 60)) := by
  intro w ms hd hh hms hlt
  have hdne : w.duration ≠ 0 := ne_of_gt hd
  have hhne : w.height ≠ 0 := ne_of_gt hh
  have hmseq : ms = Training.get_distance w.toTraining / w.duration := by
    have h1 : (Except.ok ms : Except PyError ℚ)
        = Except.ok (Training.get_distance w.toTraining / w.duration) := by
      rw [← hms, SportsWalking.get_mean_speed,
        training_mean_speed_eq w.toTraining hdne]
      exact rfl
    exact Except.ok.inj h1
  have hfloor : ⌊ms ^ 2 / w.height⌋ = 0 :=
    Int.floor_eq_zero_iff.mpr (Set.mem_Ico.mpr
      ⟨div_nonneg (sq_nonneg ms) hh.le, (div_lt_one hh).mpr hlt⟩)
  rw [walking_calories_eq w hdne hhne, ← hmseq, hfloor]
  norm_num [SportsWalking.COEFF_CALORIE_1, Training.MIN_IN_HOUR]

/-- Witness for claim C10, at the driver's WLK package
`("WLK", [9000, 1, 75, 180])`: `5.85 ^ 2 = 34.2225 < 180`, so the
calories are `0.035 * 75 * 60 = 157.5`. -/
theorem sportswalking_zero_floor_calories_witness :
    (0 : ℚ) < 1 ∧ (0 : ℚ) < 180
    ∧ SportsWalking.get_mean_speed ⟨9000, 1, 75, 180⟩ = Except.ok 5.85
    ∧ (5.85 : ℚ) ^ 2 < 180
    ∧ SportsWalking.get_spent_calories ⟨9000, 1, 75, 180⟩
        = Except.ok (0.035 * 75 * (1 * 60))
    ∧ (0.035 * 75 * (1 * 60) : ℚ) = 157.5 := by
  have hms : SportsWalking.get_mean_speed ⟨9000, 1, 75, 180⟩
      = Except.ok 5.85 := by
    rw [SportsWalking.get_mean_speed,
      training_mean_speed_eq _ (by norm_num [SportsWalking.toTraining])]
    norm_num [SportsWalking.toTraining, Training.get_distance,
      Training.LEN_STEP, Training.M_IN_KM]
  exact ⟨by norm_num, by norm_num, hms, by norm_num,
    sportswalking_zero_floor_calories ⟨9000, 1, 75, 180⟩ 5.85
      (by norm_num) (by norm_num) hms (by norm_num), by norm_num⟩

/-! ### Rendering the driver's three packages -/

theorem except_bind_ok {α β : Type} (a : α) (f : α → Except PyError β) :
    (Except.ok a : Except PyError α) >>= f = f a := rfl

theorem except_pure_eq {α : Type} (a : α) :
    (pure a : Except PyError α) = Except.ok a := rfl

theorem fmt3_one : fmt3 1 = "1.000" := by
  rw [fmt3_eq 1 1000 (by rw [round_eq, Int.floor_eq_iff]; norm_num)]
  decide

theorem fmt3_dist_swm : fmt3 0.9936 = "0.994" := by
  rw [fmt3_eq 0.9936 994 (by rw [round_eq, Int.floor_eq_iff]; norm_num)]
  decide

theorem fmt3_dist_run : fmt3 9.75 = "9.750" := by
  rw [fmt3_eq 9.75 9750 (by rw [round_eq, Int.floor_eq_iff]; norm_num)]
  decide

theorem fmt3_cal_run : fmt3 699.75 = "699.750" := by
  rw [fmt3_eq 699.75 699750 (by rw [round_eq, Int.floor_eq_iff]; norm_num)]
  decide

theorem fmt3_dist_wlk : fmt3 5.85 = "5.850" := by
  rw [fmt3_eq 5.85 5850 (by rw [round_eq, Int.floor_eq_iff]; norm_num)]
  decide

theorem fmt3_cal_wlk : fmt3 157.5 = "157.500" := by
  rw [fmt3_eq 157.5 157500 (by rw [round_eq, Int.floor_eq_iff]; norm_num)]
  decide

theorem fmt3_cal_swm : fmt3 336 = "336.000" := by
  rw [fmt3_eq 336 336000 (by rw [round_eq, Int.floor_eq_iff]; norm_num)]
  decide

theorem run_info :
    Running.show_training_info ⟨15000, 1, 75⟩
      = Except.ok ⟨"Running", 1, 9.75, 9.75, 699.75⟩ := by
  have hms : Training.get_mean_speed ⟨15000, 1, 75⟩ = Except.ok 9.75 := by
    rw [training_mean_speed_eq _ (by norm_num)]
    norm_num [Training.get_distance, Training.LEN_STEP, Training.M_IN_KM]
  have hcal : Running.get_spent_calories ⟨15000, 1, 75⟩
      = Except.ok 699.75 := by
    rw [running_calories_eq _ (by norm_num)]
    norm_num [Training.get_distance, Training.LEN_STEP, Training.M_IN_KM,
      Running.COEFF_MEAN_SPEED_1, Running.COEFF_MEAN_SPEED_2,
      Training.MIN_IN_HOUR]
  simp [Running.show_training_info, hms, hcal, except_bind_ok, except_pure_eq]
  norm_num [Training.get_distance, Training.LEN_STEP, Training.M_IN_KM]

theorem wlk_info :
    SportsWalking.show_training_info ⟨9000, 1, 75, 180⟩
      = Except.ok ⟨"SportsWalking", 1, 5.85, 5.85, 157.5⟩ := by
  have hms : SportsWalking.get_mean_speed ⟨9000, 1, 75, 180⟩
      = Except.ok 5.85 := by
    rw [SportsWalking.get_mean_speed,
      training_mean_speed_eq _ (by norm_num [SportsWalking.toTraining])]
    norm_num [SportsWalking.toTraining, Training.get_distance,
      Training.LEN_STEP, Training.M_IN_KM]
  have hfloor : ⌊(5.85 : ℚ) ^ 2 / 180⌋ = 0 := by
    rw [Int.floor_eq_iff]
    norm_num
  have hcal : SportsWalking.get_spent_calories ⟨9000, 1, 75, 180⟩
      = Except.ok 157.5 := by
    rw [walking_calories_eq _ (by norm_num) (by norm_num)]
    rw [show Training.get_distance
          (SportsWalking.toTraining ⟨9000, 1, 75, 180⟩)
            / (⟨9000, 1, 75, 180⟩ : SportsWalking).duration = (5.85 : ℚ) by
      norm_num [SportsWalking.toTraining, Training.get_distance,
        Training.LEN_STEP, Training.M_IN_KM]]
    rw [hfloor]
    norm_num [SportsWalking.COEFF_CALORIE_1, SportsWalking.COEFF_CALORIE_2,
      Training.MIN_IN_HOUR]
  simp [SportsWalking.show_training_info, hms, hcal, except_bind_ok,
    except_pure_eq]
  norm_num [SportsWalking.get_distance, SportsWalking.toTraining,
    Training.get_distance, Training.LEN_STEP, Training.M_IN_KM]

theorem swm_info :
    Swimming.show_training_info ⟨720, 1, 80, 25, 40⟩
      = Except.ok ⟨"Swimming", 1, 0.9936, 1, 336⟩ := by
  have hms : Swimming.get_mean_speed ⟨720, 1, 80, 25, 40⟩
      = Except.ok 1 := by
    rw [swimming_mean_speed_eq _ (by norm_num)]
    norm_num [Training.M_IN_KM]
  have hcal : Swimming.get_spent_calories ⟨720, 1, 80, 25, 40⟩
      = Except.ok 336 := by
    rw [swimming_calories_eq _ (by norm_num)]
    norm_num [Training.M_IN_KM, Swimming.COEFF_MEAN_SPEED_1,
      Swimming.COEFF_MEAN_SPEED_2]
  simp [Swimming.show_training_info, hms, hcal, except_bind_ok,
    except_pure_eq]
  norm_num [Swimming.get_distance, Swimming.LEN_STEP, Training.M_IN_KM]

theorem run_message :
    main_message "RUN" [15000, 1, 75]
      = Except.ok ("Тип тренировки: Running; Длительность: 1.000 ч.; "
        ++ "Дистанция: 9.750 км; Ср. скорость: 9.750 км/ч; "
        ++ "Потрачено ккал: 699.750.") := by
  have hrp : read_package "RUN" [15000, 1, 75]
      = Except.ok (TrainingInst.run ⟨15000, 1, 75⟩) := rfl
  simp [main_message, hrp, TrainingInst.show_training_info, run_info,
    except_bind_ok, except_pure_eq, InfoMessage.get_message,
    fmt3_one, fmt3_dist_run, fmt3_cal_run]

theorem wlk_message :
    main_message "WLK" [9000, 1, 75, 180]
      = Except.ok ("Тип тренировки: SportsWalking; Длительность: 1.000 ч.; "
        ++ "Дистанция: 5.850 км; Ср. скорость: 5.850 км/ч; "
        ++ "Потрачено ккал: 157.500.") := by
  have hrp : read_package "WLK" [9000, 1, 75, 180]
      = Except.ok (TrainingInst.wlk ⟨9000, 1, 75, 180⟩) := rfl
  simp [main_message, hrp, TrainingInst.show_training_info, wlk_info,
    except_bind_ok, except_pure_eq, InfoMessage.get_message,
    fmt3_one, fmt3_dist_wlk, fmt3_cal_wlk]

theorem swm_message :
    main_message "SWM" [720, 1, 80, 25, 40]
      = Except.ok ("Тип тренировки: Swimming; Длительность: 1.000 ч.; "
        ++ "Дистанция: 0.994 км; Ср. скорость: 1.000 км/ч; "
        ++ "Потрачено ккал: 336.000.") := by
  have hrp : read_package "SWM" [720, 1, 80, 25, 40]
      = Except.ok (TrainingInst.swm ⟨720, 1, 80, 25, 40⟩) := rfl
  simp [main_message, hrp, TrainingInst.show_training_info, swm_info,
    except_bind_ok, except_pure_eq, InfoMessage.get_message,
    fmt3_one, fmt3_dist_swm, fmt3_cal_swm]

/-- Claim C8, counterexample: the summary of the WLK package renders the
class name `"SportsWalking"` (not `"WalkingWithLoad"`) inside the
Russian class template, so the claimed English line
`Workout type: WalkingWithLoad; Duration: ... h; ...` is not what
formatting produces. -/
theorem message_format_cex :
    (SportsWalking.show_training_info ⟨9000, 1, 75, 180⟩).map
        InfoMessage.training_type = Except.ok "SportsWalking"
    ∧ "SportsWalking" ≠ "WalkingWithLoad"
    ∧ main_message "WLK" [9000, 1, 75, 180]
        ≠ Except.ok ("Workout type: WalkingWithLoad; Duration: 1.000 h; "
          ++ "Distance: 5.850 km; Mean speed: 5.850 km/h; "
          ++ "Calories burned: 157.500.") := by
  refine ⟨by rw [wlk_info]; rfl, by decide, ?_⟩
  rw [wlk_message]
  decide

/-- Claim C8, amended: formatting produces a single line following the
source's Russian template — `Тип тренировки: <name>; Длительность:
<duration> ч.; Дистанция: <distance> км; Ср. скорость: <speed> км/ч;
Потрачено ккал: <calories>.` — with every numeric field rendered to
exactly three decimal places and `<name>` the variant's class name
(`"Running"`, `"SportsWalking"`, `"Swimming"`); shown here end-to-end on
the driver's three packages. -/
theorem message_format_amended :
    main_message "SWM" [720, 1, 80, 25, 40]
      = Except.ok ("Тип тренировки: Swimming; Длительность: 1.000 ч.; "
        ++ "Дистанция: 0.994 км; Ср. скорость: 1.000 км/ч; "
        ++ "Потрачено ккал: 336.000.")
    ∧ main_message "RUN" [15000, 1, 75]
      = Except.ok ("Тип тренировки: Running; Длительность: 1.000 ч.; "
        ++ "Дистанция: 9.750 км; Ср. скорость: 9.750 км/ч; "
        ++ "Потрачено ккал: 699.750.")
    ∧ main_message "WLK" [9000, 1, 75, 180]
      = Except.ok ("Тип тренировки: SportsWalking; Длительность: 1.000 ч.; "
        ++ "Дистанция: 5.850 км; Ср. скорость: 5.850 км/ч; "
        ++ "Потрачено ккал: 157.500.") :=
  ⟨swm_message, run_message, wlk_message⟩
